import Mathlib

/-! Verification of the matching and shortlisting engine of NeuralRecruit
(`src/job_screening_ai/agents/matcher.py` and `shortlister.py`).

Modelling conventions:
* Python floats are modelled as `ℚ` (all score arithmetic in the source is
  exact decimal arithmetic on values like `100.0`, `0.5`, `0.8`).
* Python strings are Lean `String`s; the regular-expression searches used by
  the matcher are implemented as executable functions on `List Char`
  (`searchYears` for `(\d+)[\+]?\s*(?:years?|yrs?)`, `searchYear4` for
  `(\d{4})`, `parseDecimal` for `(\d+\.?\d*)`).
* The NLTK text normalizer (`_preprocess_text`: tokenize, drop stopwords and
  punctuation, lemmatize) is an external library; skill matching is
  parametrized by an abstract `pre : String → List String`.
* The network call to the advisory scorer is modelled by its observable
  outcome: `none` for an exception, `some (status, body)` for a response with
  HTTP status code and reply text.
-/

namespace NeuralRecruit

/-! Section: Character and string helpers -/

/-- ASCII lowercasing of a character list, modelling Python `str.lower()`. -/
def lowerChars (l : List Char) : List Char := l.map Char.toLower

/-- Numeric value of a decimal digit character. -/
def digitVal (c : Char) : Nat := c.toNat - 48

/-- The natural number denoted by a list of decimal digit characters,
modelling Python `int(...)` on a digit string. -/
def natOfDigits (ds : List Char) : Nat := ds.foldl (fun a c => 10 * a + digitVal c) 0

/-- Substring test on character lists, modelling Python `needle in hay`. -/
def hasSub (needle : List Char) : List Char → Bool
  | [] => needle.isEmpty
  | c :: rest => needle.isPrefixOf (c :: rest) || hasSub needle rest

/-! Section: The years pattern `(\d+)[\+]?\s*(?:years?|yrs?)`

`re.search` semantics: leftmost match wins.  At a digit position the greedy
`\d+` must consume the whole digit run (a shorter run leaves a digit next,
which can start none of `[\+]?`, `\s*`-then-`y`), after which the optional
`+`, the whitespace run and the unit word are matched deterministically. -/

/-- Does the tail begin with `year` or `yr` (the `(?:years?|yrs?)` part;
the optional trailing `s` never affects match success)? -/
def yearUnitAt (l : List Char) : Bool :=
  "year".data.isPrefixOf l || "yr".data.isPrefixOf l

/-- Match `[\+]?\s*(?:years?|yrs?)` at the start of `l`. -/
def afterDigits (l : List Char) : Bool :=
  let l1 := match l with
    | '+' :: rest => rest
    | _ => l
  yearUnitAt (l1.dropWhile Char.isWhitespace)

/-- Leftmost match of `(\d+)[\+]?\s*(?:years?|yrs?)`, returning group 1 as a
number, modelling `re.search(years_pattern, s)` on an already-lowercased `s`. -/
def searchYears : List Char → Option Nat
  | [] => none
  | c :: rest =>
    if c.isDigit then
      if afterDigits ((c :: rest).dropWhile Char.isDigit) then
        some (natOfDigits ((c :: rest).takeWhile Char.isDigit))
      else searchYears rest
    else searchYears rest

/-- Python `re.search(years_pattern, s.lower())` as used on the required-experience
and duration strings. -/
def extractYears (s : String) : Option Nat := searchYears (lowerChars s.data)

/-- Leftmost match of `(\d{4})`: the first four consecutive digits,
modelling `re.search(r'(\d{4})', s)`. -/
def searchYear4 : List Char → Option Nat
  | a :: b :: c :: d :: rest =>
    if a.isDigit && b.isDigit && c.isDigit && d.isDigit then
      some (natOfDigits [a, b, c, d])
    else searchYear4 (b :: c :: d :: rest)
  | _ => none

/-- Leftmost match of `(\d+\.?\d*)` read as a number, modelling the score
extraction from the advisory reply (`float(match.group(1))`). -/
def parseDecimal : List Char → Option ℚ
  | [] => none
  | c :: rest =>
    if c.isDigit then
      let intPart := (c :: rest).takeWhile Char.isDigit
      some (match (c :: rest).dropWhile Char.isDigit with
        | '.' :: t =>
          let fracPart := t.takeWhile Char.isDigit
          (natOfDigits intPart : ℚ) + (natOfDigits fracPart : ℚ) / (10 ^ fracPart.length)
        | _ => (natOfDigits intPart : ℚ))
    else parseDecimal rest

/-! Section: Data model (pydantic models of the agents) -/

/-- Model of `JobRequirement` (jd_parser.py). -/
structure JobRequirement where
  required_skills : List String
  preferred_skills : List String
  experience : String
  education : List String

/-- Model of `JobDescription` (jd_parser.py); fields not read by the matcher are kept
for fidelity to the record. -/
structure JobDescription where
  job_id : String
  title : String
  company : String
  location : String
  job_type : String
  description : String
  responsibilities : List String
  requirements : JobRequirement
  salary_range : String
  posting_date : String
  department : String

/-- Model of `CandidateExperience` (resume_parser.py). -/
structure CandidateExperience where
  company : String
  title : String
  duration : String
  description : String
  start_date : String
  end_date : String

/-- Model of `CandidateEducation` (resume_parser.py). -/
structure CandidateEducation where
  institution : String
  degree : String
  field_of_study : String
  graduation_date : String

/-- Model of `CandidateProfile` (resume_parser.py). -/
structure CandidateProfile where
  candidate_id : String
  name : String
  email : String
  phone : String
  location : String
  linkedin : String
  summary : String
  skills : List String
  experience : List CandidateExperience
  education : List CandidateEducation
  certifications : List String
  languages : List String

/-- The `match_details` dict assembled by `match_candidate_to_job`. -/
structure MatchDetails where
  matched_skills : List String
  missing_skills : List String
  skill_match_percentage : ℚ
  experience_match_percentage : ℚ
  education_match_percentage : ℚ

/-- Model of `MatchResult` (matcher.py). -/
structure MatchResult where
  job_id : String
  candidate_id : String
  overall_match_score : ℚ
  skill_match_score : ℚ
  experience_match_score : ℚ
  education_match_score : ℚ
  match_details : MatchDetails

/-- The `shortlist_stats` dict assembled by `shortlist_candidates`. -/
structure ShortlistStats where
  total_candidates : Nat
  shortlisted_count : Nat
  rejected_count : Nat
  shortlist_percentage : ℚ
  avg_shortlisted_score : ℚ
  avg_rejected_score : ℚ

/-- Model of `ShortlistResult` (shortlister.py). -/
structure ShortlistResult where
  job_id : String
  shortlisted_candidates : List String
  rejected_candidates : List String
  shortlist_threshold : ℚ
  shortlist_stats : ShortlistStats

/-! Section: Skill matching (`MatcherAgent._calculate_skill_match`)

Parametrized by `pre`, the abstract NLTK-based `_preprocess_text`. -/

/-- The containment test of matcher.py lines 83-84: all job-skill tokens
occur among the candidate-skill tokens, or vice versa. -/
def tokenContainment (jt ct : List String) : Bool :=
  jt.all (fun t => ct.contains t) || ct.all (fun t => jt.contains t)

/-- The inner loop over `candidate_skills` (lines 79-86): scan in order and
stop at the first candidate skill whose token list is in containment with the
job skill's token list. -/
def firstContainmentMatch (pre : String → List String) (job_skill : String) :
    List String → Bool
  | [] => false
  | c :: rest =>
    tokenContainment (pre job_skill) (pre c) ||
      firstContainmentMatch pre job_skill rest

/-- Model of `_calculate_skill_match`: returns `(match_score, matched_skills)`. -/
def calculateSkillMatch (pre : String → List String)
    (job_skills candidate_skills : List String) : ℚ × List String :=
  if job_skills = [] then (100, [])
  else
    let matched_skills :=
      job_skills.filter (fun s => firstContainmentMatch pre s candidate_skills)
    (((matched_skills.length : ℚ) / (job_skills.length : ℚ)) * 100, matched_skills)

/-! Section: Experience matching (`MatcherAgent._calculate_experience_match`) -/

/-- The per-entry contribution to `total_candidate_years` (lines 108-125):
the year count parsed from `duration` if any, otherwise the difference of the
4-digit years found in the dates, with `end_date` containing "present"
(or carrying no 4-digit year) standing for the hardcoded year 2023, and an
unparseable `start_date` contributing nothing. -/
def entryYears (e : CandidateExperience) : Int :=
  match extractYears e.duration with
  | some n => (n : Int)
  | none =>
    let endLower := lowerChars e.end_date.data
    match searchYear4 e.start_date.data with
    | none => 0
    | some start_year =>
      let end_year : Int :=
        if hasSub "present".data endLower then 2023
        else match searchYear4 endLower with
          | some y => (y : Int)
          | none => 2023
      end_year - start_year

/-- Model of `total_candidate_years`: the entries' contributions summed independently. -/
def totalCandidateYears (entries : List CandidateExperience) : Int :=
  (entries.map entryYears).sum

/-- Model of `_calculate_experience_match`. -/
def calculateExperienceMatch (required_experience : String)
    (candidate_experiences : List CandidateExperience) : ℚ :=
  if required_experience = "" then 100
  else
    match extractYears required_experience with
    | none => 80
    | some required_years =>
      let total := totalCandidateYears candidate_experiences
      if (required_years : Int) ≤ total then 100
      else if (required_years : ℚ) * 0.8 ≤ (total : ℚ) then 90
      else if (required_years : ℚ) * 0.6 ≤ (total : ℚ) then 70
      else if (required_years : ℚ) * 0.4 ≤ (total : ℚ) then 50
      else 30

/-! Section: Education matching (`MatcherAgent._calculate_education_match`) -/

/-- The education level hierarchy (lines 145-152). -/
def educationLevels : List (String × Nat) :=
  [("high school", 1), ("associate", 2), ("bachelor", 3),
   ("master", 4), ("phd", 5), ("doctorate", 5)]

/-- The highest hierarchy value whose label occurs in the lowercased string
(`for level, value in education_levels: if level in edu_lower: ... max ...`),
`0` when none occurs. -/
def levelOf (s : String) : Nat :=
  educationLevels.foldl
    (fun acc p => if hasSub p.1.data (lowerChars s.data) then max acc p.2 else acc) 0

/-- The `required_level` value before the bachelor default: max over required strings. -/
def requiredLevelRaw (required_education : List String) : Nat :=
  required_education.foldl (fun acc edu => max acc (levelOf edu)) 0

/-- The `candidate_level` value: max over the entries' `degree` fields. -/
def candidateLevel (candidate_education : List CandidateEducation) : Nat :=
  candidate_education.foldl (fun acc edu => max acc (levelOf edu.degree)) 0

/-- Model of `_calculate_education_match`. -/
def calculateEducationMatch (required_education : List String)
    (candidate_education : List CandidateEducation) : ℚ :=
  if required_education = [] then 100
  else
    let raw := requiredLevelRaw required_education
    let required_level := if raw = 0 then 3 else raw
    let candidate_level := candidateLevel candidate_education
    if required_level ≤ candidate_level then 100
    else if candidate_level = required_level - 1 then 80
    else if candidate_level = required_level - 2 then 60
    else 40

/-! Section: Score combination (`_use_llm_for_final_evaluation`,
`_calculate_weighted_average`) -/

/-- Model of `_calculate_weighted_average`: skills 50%, experience 30%, education 20%. -/
def calculateWeightedAverage (skill_score experience_score education_score : ℚ) : ℚ :=
  skill_score * 0.5 + experience_score * 0.3 + education_score * 0.2

/-- The observable outcome of the advisory `requests.post` call: `none` when
the call raises, otherwise the status code and reply text. -/
abbrev AdvisorResponse := Option (Nat × String)

/-- Model of `_use_llm_for_final_evaluation` (lines 214-242): on a 200 response whose
text contains a number, clamp that number to `[0, 100]`; in every other case
fall back to the weighted average. -/
def useLLMForFinalEvaluation (resp : AdvisorResponse)
    (skill_score experience_score education_score : ℚ) : ℚ :=
  match resp with
  | none => calculateWeightedAverage skill_score experience_score education_score
  | some (status_code, text) =>
    if status_code = 200 then
      match parseDecimal text.data with
      | some score => max 0 (min 100 score)
      | none => calculateWeightedAverage skill_score experience_score education_score
    else calculateWeightedAverage skill_score experience_score education_score

/-! Section: Orchestration (`MatcherAgent.match_candidate_to_job`) -/

/-- Model of `match_candidate_to_job`: computes the three sub-scores, lets the advisor
(given by its outcome `resp`) refine the overall score, and assembles the
`MatchResult`. -/
def matchCandidateToJob (pre : String → List String) (resp : AdvisorResponse)
    (job : JobDescription) (candidate : CandidateProfile) : MatchResult :=
  let all_job_skills := job.requirements.required_skills ++ job.requirements.preferred_skills
  let sm := calculateSkillMatch pre all_job_skills candidate.skills
  let skill_score := sm.1
  let matched_skills := sm.2
  let experience_score :=
    calculateExperienceMatch job.requirements.experience candidate.experience
  let education_score :=
    calculateEducationMatch job.requirements.education candidate.education
  let overall_score :=
    useLLMForFinalEvaluation resp skill_score experience_score education_score
  { job_id := job.job_id
    candidate_id := candidate.candidate_id
    overall_match_score := overall_score
    skill_match_score := skill_score
    experience_match_score := experience_score
    education_match_score := education_score
    match_details :=
      { matched_skills := matched_skills
        missing_skills := all_job_skills.filter (fun s => !(matched_skills.contains s))
        skill_match_percentage := skill_score
        experience_match_percentage := experience_score
        education_match_percentage := education_score } }

/-! Section: Shortlisting (`ShortlisterAgent.shortlist_candidates`) -/

/-- Model of `shortlist_candidates` with the agent's `default_threshold` passed
explicitly (constructor default `70.0`): partitions the batch at the
threshold, inclusive on the shortlisted side, and computes the stats. -/
def shortlistCandidates (default_threshold : ℚ) (match_results : List MatchResult)
    (thresholdOpt : Option ℚ) : ShortlistResult :=
  let threshold := thresholdOpt.getD default_threshold
  match match_results with
  | [] =>
    { job_id := "unknown"
      shortlisted_candidates := []
      rejected_candidates := []
      shortlist_threshold := threshold
      shortlist_stats :=
        { total_candidates := 0, shortlisted_count := 0, rejected_count := 0
          shortlist_percentage := 0, avg_shortlisted_score := 0
          avg_rejected_score := 0 } }
  | first :: _ =>
    let shortlistedResults :=
      match_results.filter (fun r => decide (threshold ≤ r.overall_match_score))
    let rejectedResults :=
      match_results.filter (fun r => !(decide (threshold ≤ r.overall_match_score)))
    let shortlisted := shortlistedResults.map (fun r => r.candidate_id)
    let rejected := rejectedResults.map (fun r => r.candidate_id)
    let shortlisted_scores := shortlistedResults.map (fun r => r.overall_match_score)
    let rejected_scores := rejectedResults.map (fun r => r.overall_match_score)
    let total_candidates := match_results.length
    let shortlisted_count := shortlisted.length
    let rejected_count := rejected.length
    { job_id := first.job_id
      shortlisted_candidates := shortlisted
      rejected_candidates := rejected
      shortlist_threshold := threshold
      shortlist_stats :=
        { total_candidates := total_candidates
          shortlisted_count := shortlisted_count
          rejected_count := rejected_count
          shortlist_percentage :=
            ((shortlisted_count : ℚ) / (total_candidates : ℚ)) * 100
          avg_shortlisted_score :=
            if 0 < shortlisted_count then
              shortlisted_scores.sum / (shortlisted_count : ℚ)
            else 0
          avg_rejected_score :=
            if 0 < rejected_count then
              rejected_scores.sum / (rejected_count : ℚ)
            else 0 } }

/-! Section: Helper lemmas about skill matching -/

theorem firstContainmentMatch_eq_any (pre : String → List String) (s : String) :
    ∀ l : List String, firstContainmentMatch pre s l =
      l.any (fun c => tokenContainment (pre s) (pre c))
  | [] => rfl
  | c :: rest => by
    simp [firstContainmentMatch, firstContainmentMatch_eq_any pre s rest]

theorem tokenContainment_iff (jt ct : List String) :
    tokenContainment jt ct = true ↔
      (∀ t ∈ jt, t ∈ ct) ∨ (∀ t ∈ ct, t ∈ jt) := by
  simp [tokenContainment, List.all_eq_true, List.elem_iff]

theorem firstContainmentMatch_iff (pre : String → List String) (s : String)
    (cands : List String) :
    firstContainmentMatch pre s cands = true ↔
      ∃ c ∈ cands, ((∀ t ∈ pre s, t ∈ pre c) ∨ (∀ t ∈ pre c, t ∈ pre s)) := by
  rw [firstContainmentMatch_eq_any]
  simp [List.any_eq_true, tokenContainment_iff]

/-- C9: `match_skills` returns `(100.0, [])` when `job_skills` is empty;
otherwise the score is `100 × |matched| / |job_skills|`, where a job skill is
matched exactly when its normalized token list is contained in some candidate
skill's token list or vice versa (symmetric containment over the in-order,
first-match-wins scan of the candidate skills). -/
theorem calculateSkillMatch_spec (pre : String → List String)
    (job_skills candidate_skills : List String) :
    (job_skills = [] → calculateSkillMatch pre job_skills candidate_skills = (100, [])) ∧
    (job_skills ≠ [] →
      (calculateSkillMatch pre job_skills candidate_skills).1 =
        100 * ((calculateSkillMatch pre job_skills candidate_skills).2.length : ℚ) /
          (job_skills.length : ℚ) ∧
      ∀ s, s ∈ (calculateSkillMatch pre job_skills candidate_skills).2 ↔
        s ∈ job_skills ∧ ∃ c ∈ candidate_skills,
          ((∀ t ∈ pre s, t ∈ pre c) ∨ (∀ t ∈ pre c, t ∈ pre s))) := by
  constructor
  · intro h
    simp [calculateSkillMatch, h]
  · intro h
    refine ⟨?_, ?_⟩
    · simp only [calculateSkillMatch, if_neg h]
      ring
    · intro s
      simp [calculateSkillMatch, if_neg h, List.mem_filter,
        firstContainmentMatch_iff]

/-- Witness for C9 at `pre = fun s => [s]`, `job_skills = ["python"]`,
`candidate_skills = ["python"]`. -/
theorem calculateSkillMatch_spec_witness :
    (calculateSkillMatch (fun s => [s]) ["python"] ["python"]).1 =
      100 * ((calculateSkillMatch (fun s => [s]) ["python"] ["python"]).2.length : ℚ) /
        ((["python"] : List String).length : ℚ) ∧
    ∀ s, s ∈ (calculateSkillMatch (fun s => [s]) ["python"] ["python"]).2 ↔
      s ∈ (["python"] : List String) ∧ ∃ c ∈ (["python"] : List String),
        ((∀ t ∈ [s], t ∈ [c]) ∨ (∀ t ∈ [c], t ∈ [s])) :=
  (calculateSkillMatch_spec (fun s => [s]) ["python"] ["python"]).2 (by decide)

/-- C10: if some candidate skill normalizes to the empty token list, the
containment test holds vacuously for it, so with a non-empty `job_skills`
every job skill is matched and the result is `(100.0, job_skills)`. -/
theorem calculateSkillMatch_empty_tokens (pre : String → List String)
    (job_skills candidate_skills : List String) (c : String)
    (hc : c ∈ candidate_skills) (hpre : pre c = [])
    (hne : job_skills ≠ []) :
    calculateSkillMatch pre job_skills candidate_skills = (100, job_skills) := by
  have hall : ∀ s ∈ job_skills,
      firstContainmentMatch pre s candidate_skills = true := by
    intro s _
    rw [firstContainmentMatch_iff]
    exact ⟨c, hc, Or.inr (by simp [hpre])⟩
  have hfilter :
      job_skills.filter (fun s => firstContainmentMatch pre s candidate_skills) =
        job_skills :=
    List.filter_eq_self.mpr hall
  have hlen0 : job_skills.length ≠ 0 := fun h0 => hne (List.length_eq_zero.mp h0)
  have hlen : (job_skills.length : ℚ) ≠ 0 := Nat.cast_ne_zero.mpr hlen0
  simp [calculateSkillMatch, if_neg hne, hfilter, div_self hlen]

/-- Witness for C10 with a candidate skill normalizing to no tokens. -/
theorem calculateSkillMatch_empty_tokens_witness :
    calculateSkillMatch (fun _ => []) ["Python"] ["the"] = (100, ["Python"]) :=
  calculateSkillMatch_empty_tokens (fun _ => []) ["Python"] ["the"] "the"
    (by simp) rfl (by simp)

/-! Section: Sample inputs used by witnesses and counterexamples -/

/-- A job listing "Python" both as required and as preferred skill. -/
def jobDupSkill : JobDescription :=
  { job_id := "JD-1", title := "Dev", company := "Acme", location := "",
    job_type := "", description := "", responsibilities := [],
    requirements :=
      { required_skills := ["Python"], preferred_skills := ["Python"],
        experience := "", education := [] },
    salary_range := "", posting_date := "", department := "" }

/-- A job with duplicate-free skill lists. -/
def jobDisjointSkills : JobDescription :=
  { job_id := "JD-2", title := "Dev", company := "Acme", location := "",
    job_type := "", description := "", responsibilities := [],
    requirements :=
      { required_skills := ["Python"], preferred_skills := ["AWS"],
        experience := "", education := [] },
    salary_range := "", posting_date := "", department := "" }

/-- A candidate whose only skill is "Python". -/
def candPython : CandidateProfile :=
  { candidate_id := "C-1", name := "Jo", email := "", phone := "", location := "",
    linkedin := "", summary := "", skills := ["Python"], experience := [],
    education := [], certifications := [], languages := [] }

/-! Section: C5: matched/missing skill partition -/

theorem contains_filter_eq (P : String → Bool) (all : List String) :
    ∀ s ∈ all, (all.filter P).contains s = P s := by
  intro s hs
  cases hP : P s with
  | true => exact List.elem_iff.mpr (List.mem_filter.mpr ⟨hs, hP⟩)
  | false =>
    rw [Bool.eq_false_iff]
    intro hc
    have hmem := (List.mem_filter.mp (List.elem_iff.mp hc)).2
    simp [hP] at hmem

/-- C5 counterexample: with "Python" in both required and preferred skills and
a matching candidate, `matched_skills` lists "Python" twice, so neither is
`matched_skills` duplicate-free nor is `matched ++ missing` a duplication-free
enumeration of the job's skills.  (The containment test succeeds for any
normalizer on two identical skill strings, so the choice of `pre` is
immaterial.) -/
theorem matchDetails_dup_counterexample :
    (matchCandidateToJob (fun s => [s]) none jobDupSkill candPython).match_details.matched_skills
      = ["Python", "Python"] ∧
    ¬ ((matchCandidateToJob (fun s => [s]) none jobDupSkill
        candPython).match_details.matched_skills ++
      (matchCandidateToJob (fun s => [s]) none jobDupSkill
        candPython).match_details.missing_skills).Nodup := by
  constructor
  · rfl
  · decide

/-- C5 (amended): provided `required_skills ++ preferred_skills` has no
duplicates, `matched_skills ++ missing_skills` is a permutation of it without
duplication, and `matched_skills` is a duplicate-free sublist preserving
job-skill order. -/
theorem matchDetails_partition (pre : String → List String) (resp : AdvisorResponse)
    (job : JobDescription) (candidate : CandidateProfile)
    (h : (job.requirements.required_skills ++ job.requirements.preferred_skills).Nodup) :
    ((matchCandidateToJob pre resp job candidate).match_details.matched_skills ++
      (matchCandidateToJob pre resp job candidate).match_details.missing_skills).Perm
      (job.requirements.required_skills ++ job.requirements.preferred_skills) ∧
    (matchCandidateToJob pre resp job candidate).match_details.matched_skills.Sublist
      (job.requirements.required_skills ++ job.requirements.preferred_skills) ∧
    ((matchCandidateToJob pre resp job candidate).match_details.matched_skills ++
      (matchCandidateToJob pre resp job candidate).match_details.missing_skills).Nodup := by
  have hm : (matchCandidateToJob pre resp job candidate).match_details.matched_skills
      = (calculateSkillMatch pre
          (job.requirements.required_skills ++ job.requirements.preferred_skills)
          candidate.skills).2 := by
    simp [matchCandidateToJob]
  have hmiss : (matchCandidateToJob pre resp job candidate).match_details.missing_skills
      = (job.requirements.required_skills ++ job.requirements.preferred_skills).filter
          (fun s => !((calculateSkillMatch pre
            (job.requirements.required_skills ++ job.requirements.preferred_skills)
            candidate.skills).2.contains s)) := by
    simp [matchCandidateToJob]
  by_cases hne :
      (job.requirements.required_skills ++ job.requirements.preferred_skills) = []
  · refine ⟨?_, ?_, ?_⟩ <;> simp [hm, hmiss, hne, calculateSkillMatch]
  · have hm2 : (calculateSkillMatch pre
        (job.requirements.required_skills ++ job.requirements.preferred_skills)
        candidate.skills).2
        = (job.requirements.required_skills ++ job.requirements.preferred_skills).filter
            (fun s => firstContainmentMatch pre s candidate.skills) := by
      simp only [calculateSkillMatch]
      rw [if_neg hne]
    have hcongr :
        (job.requirements.required_skills ++ job.requirements.preferred_skills).filter
          (fun s => !(((job.requirements.required_skills ++
              job.requirements.preferred_skills).filter
            (fun s => firstContainmentMatch pre s candidate.skills)).contains s))
        = (job.requirements.required_skills ++ job.requirements.preferred_skills).filter
            (fun s => !(firstContainmentMatch pre s candidate.skills)) :=
      List.filter_congr (by
        intro s hs
        rw [contains_filter_eq (fun s => firstContainmentMatch pre s candidate.skills)
          _ s hs])
    refine ⟨?_, ?_, ?_⟩
    · rw [hm, hmiss, hm2, hcongr]
      exact List.filter_append_perm _ _
    · rw [hm, hm2]
      exact List.filter_sublist _
    · rw [hm, hmiss, hm2, hcongr]
      exact ((List.filter_append_perm _ _).nodup_iff).mpr h

/-- Witness for C5 (amended) on a duplicate-free skill list. -/
theorem matchDetails_partition_witness :
    ((matchCandidateToJob (fun s => [s]) none jobDisjointSkills
        candPython).match_details.matched_skills ++
      (matchCandidateToJob (fun s => [s]) none jobDisjointSkills
        candPython).match_details.missing_skills).Perm
      (jobDisjointSkills.requirements.required_skills ++
        jobDisjointSkills.requirements.preferred_skills) ∧
    (matchCandidateToJob (fun s => [s]) none jobDisjointSkills
        candPython).match_details.matched_skills.Sublist
      (jobDisjointSkills.requirements.required_skills ++
        jobDisjointSkills.requirements.preferred_skills) ∧
    ((matchCandidateToJob (fun s => [s]) none jobDisjointSkills
        candPython).match_details.matched_skills ++
      (matchCandidateToJob (fun s => [s]) none jobDisjointSkills
        candPython).match_details.missing_skills).Nodup :=
  matchDetails_partition (fun s => [s]) none jobDisjointSkills candPython (by decide)

/-! Section: C7: experience-requirement defaults -/

/-- C7: `match_experience` returns `100.0` on an empty required string and
the default `80.0` when the required string is non-empty but the
`(\d+)[\+]?\s*(?:years?|yrs?)` pattern finds no year count in it (the
function is total, so it raises for no well-typed input). -/
theorem calculateExperienceMatch_defaults (required : String)
    (entries : List CandidateExperience) :
    (required = "" → calculateExperienceMatch required entries = 100) ∧
    (required ≠ "" → extractYears required = none →
      calculateExperienceMatch required entries = 80) := by
  constructor
  · intro h
    simp [calculateExperienceMatch, h]
  · intro h hn
    simp [calculateExperienceMatch, h, hn]

/-- Witness for C7: empty requirement and an unparseable requirement. -/
theorem calculateExperienceMatch_defaults_witness :
    calculateExperienceMatch "" [] = 100 ∧
    calculateExperienceMatch "several years" [] = 80 :=
  ⟨(calculateExperienceMatch_defaults "" []).1 rfl,
   (calculateExperienceMatch_defaults "several years" []).2 (by decide) (by decide)⟩

/-! Section: C6: experience score bands -/

/-- C6: with a parsed requirement of `n` years, the score falls into the
discrete bands of the candidate-total-to-required ratio, each boundary
inclusive: `≥ n → 100`, `≥ 0.8n → 90`, `≥ 0.6n → 70`, `≥ 0.4n → 50`,
else `30`. -/
theorem calculateExperienceMatch_bands (required : String)
    (entries : List CandidateExperience) (n : ℕ)
    (hn : extractYears required = some n) :
    ((n : Int) ≤ totalCandidateYears entries →
      calculateExperienceMatch required entries = 100) ∧
    (¬ (n : Int) ≤ totalCandidateYears entries →
      (n : ℚ) * 0.8 ≤ ((totalCandidateYears entries : Int) : ℚ) →
      calculateExperienceMatch required entries = 90) ∧
    (¬ (n : ℚ) * 0.8 ≤ ((totalCandidateYears entries : Int) : ℚ) →
      (n : ℚ) * 0.6 ≤ ((totalCandidateYears entries : Int) : ℚ) →
      calculateExperienceMatch required entries = 70) ∧
    (¬ (n : ℚ) * 0.6 ≤ ((totalCandidateYears entries : Int) : ℚ) →
      (n : ℚ) * 0.4 ≤ ((totalCandidateYears entries : Int) : ℚ) →
      calculateExperienceMatch required entries = 50) ∧
    (¬ (n : ℚ) * 0.4 ≤ ((totalCandidateYears entries : Int) : ℚ) →
      calculateExperienceMatch required entries = 30) := by
  have hneq : required ≠ "" := by
    intro h
    rw [h, (rfl : extractYears "" = none)] at hn
    cases hn
  have hint : ∀ {m : Int}, ¬ (n : Int) ≤ m → ((m : ℚ) < (n : ℚ)) := by
    intro m hm
    have : m < (n : Int) := lt_of_not_le hm
    exact_mod_cast this
  simp only [calculateExperienceMatch, if_neg hneq, hn]
  refine ⟨?_, ?_, ?_, ?_, ?_⟩
  · intro h1
    rw [if_pos h1]
  · intro h1 h2
    rw [if_neg h1, if_pos h2]
  · intro h2 h3
    have h1 : ¬ (n : Int) ≤ totalCandidateYears entries := by
      intro h1
      have hc : ((n : Int) : ℚ) ≤ ((totalCandidateYears entries : Int) : ℚ) := by
        exact_mod_cast h1
      have : (n : ℚ) * 0.8 ≤ ((totalCandidateYears entries : Int) : ℚ) := by
        have hn0 : (0 : ℚ) ≤ (n : ℚ) := Nat.cast_nonneg n
        push_cast at hc ⊢
        nlinarith
      exact h2 this
    rw [if_neg h1, if_neg h2, if_pos h3]
  · intro h3 h4
    have h2 : ¬ (n : ℚ) * 0.8 ≤ ((totalCandidateYears entries : Int) : ℚ) := by
      intro h2
      have hn0 : (0 : ℚ) ≤ (n : ℚ) := Nat.cast_nonneg n
      exact h3 (by nlinarith)
    have h1 : ¬ (n : Int) ≤ totalCandidateYears entries := by
      intro h1
      have hc : ((n : Int) : ℚ) ≤ ((totalCandidateYears entries : Int) : ℚ) := by
        exact_mod_cast h1
      have hn0 : (0 : ℚ) ≤ (n : ℚ) := Nat.cast_nonneg n
      exact h2 (by push_cast at hc ⊢; nlinarith)
    rw [if_neg h1, if_neg h2, if_neg h3, if_pos h4]
  · intro h4
    have hn0 : (0 : ℚ) ≤ (n : ℚ) := Nat.cast_nonneg n
    have h3 : ¬ (n : ℚ) * 0.6 ≤ ((totalCandidateYears entries : Int) : ℚ) := by
      intro h3
      exact h4 (by nlinarith)
    have h2 : ¬ (n : ℚ) * 0.8 ≤ ((totalCandidateYears entries : Int) : ℚ) := by
      intro h2
      exact h3 (by nlinarith)
    have h1 : ¬ (n : Int) ≤ totalCandidateYears entries := by
      intro h1
      have hc : ((n : Int) : ℚ) ≤ ((totalCandidateYears entries : Int) : ℚ) := by
        exact_mod_cast h1
      exact h2 (by push_cast at hc ⊢; nlinarith)
    rw [if_neg h1, if_neg h2, if_neg h3, if_neg h4]

/-- Witness for C6 at the inclusive `0.8` boundary: requirement "5 years",
candidate total 4 years, score exactly `90.0`. -/
theorem calculateExperienceMatch_bands_witness :
    calculateExperienceMatch "5 years"
      [{ company := "c", title := "t", duration := "4 years",
         description := "", start_date := "", end_date := "" }] = 90 :=
  (calculateExperienceMatch_bands "5 years"
      [{ company := "c", title := "t", duration := "4 years",
         description := "", start_date := "", end_date := "" }] 5 rfl).2.1
    (by decide)
    (by show (5 : ℚ) * 0.8 ≤ ((4 : Int) : ℚ); norm_num)

/-! Section: C4: date-derived experience years -/

/-- Modelled from the spec: the per-entry derivation with the **current
calendar year** substituted for an `end_date` containing "present", as the
spec (and the source's own inline comment "Use current year if 'present'")
describes; `currentYear` makes that dependence explicit.  The source instead
hardcodes the constant `2023`. -/
def entryYearsSpec (currentYear : Int) (e : CandidateExperience) : Int :=
  match extractYears e.duration with
  | some n => (n : Int)
  | none =>
    let endLower := lowerChars e.end_date.data
    match searchYear4 e.start_date.data with
    | none => 0
    | some start_year =>
      let end_year : Int :=
        if hasSub "present".data endLower then currentYear
        else match searchYear4 endLower with
          | some y => (y : Int)
          | none => currentYear
      end_year - start_year

/-- An ongoing position with an unparseable `duration`: the failing input of
C4. -/
def expPresentEntry : CandidateExperience :=
  { company := "TechCorp", title := "Engineer", duration := "",
    description := "", start_date := "06/2016", end_date := "Present" }

/-- C4 evaluation at the failing input: the code credits `2023 − 2016 = 7`
years for a position running from 2016 to "Present", regardless of the actual
calendar year, while the claimed current-calendar-year substitution (here for
2026) yields `10`. -/
theorem entryYears_present_hardcoded :
    entryYears expPresentEntry = 7 ∧
    entryYearsSpec 2026 expPresentEntry = 10 ∧
    entryYears expPresentEntry ≠ entryYearsSpec 2026 expPresentEntry := by
  refine ⟨rfl, rfl, ?_⟩
  decide

/-! Section: C8: education score -/

theorem foldl_max_init_le {α : Type} (f : α → Nat) :
    ∀ (l : List α) (a : Nat), a ≤ l.foldl (fun acc x => max acc (f x)) a
  | [], _ => le_refl _
  | x :: xs, a =>
    le_trans (le_max_left a (f x))
      (List.foldl_cons .. ▸ foldl_max_init_le f xs (max a (f x)))

theorem foldl_max_le {α : Type} (f : α → Nat) :
    ∀ (l : List α) (a : Nat) (s : α), s ∈ l →
      f s ≤ l.foldl (fun acc x => max acc (f x)) a
  | [], _, _, h => absurd h (List.not_mem_nil _)
  | x :: xs, a, s, h => by
    simp only [List.foldl_cons]
    rcases List.mem_cons.mp h with h | h
    · rw [h]
      exact le_trans (le_max_right a (f x)) (foldl_max_init_le f xs (max a (f x)))
    · exact foldl_max_le f xs (max a (f x)) s h

theorem foldl_max_cases {α : Type} (f : α → Nat) :
    ∀ (l : List α) (a : Nat),
      l.foldl (fun acc x => max acc (f x)) a = a ∨
        ∃ s ∈ l, l.foldl (fun acc x => max acc (f x)) a = f s
  | [], a => Or.inl rfl
  | x :: xs, a => by
    simp only [List.foldl_cons]
    rcases foldl_max_cases f xs (max a (f x)) with h | ⟨s, hs, h⟩
    · rw [h]
      rcases max_cases a (f x) with ⟨h1, _⟩ | ⟨h1, _⟩
      · exact Or.inl h1
      · exact Or.inr ⟨x, List.mem_cons_self x xs, h1⟩
    · exact Or.inr ⟨s, List.mem_cons_of_mem x hs, h⟩

theorem foldl_if_max_eq (P : String × Nat → Bool) :
    ∀ (l : List (String × Nat)) (a : Nat),
      l.foldl (fun acc p => if P p then max acc p.2 else acc) a =
        (l.filter P).foldl (fun acc p => max acc p.2) a
  | [], _ => rfl
  | p :: ps, a => by
    by_cases h : P p
    · simp [List.filter_cons, h, foldl_if_max_eq P ps (max a p.2)]
    · simp [List.filter_cons, h, foldl_if_max_eq P ps a]

theorem levelOf_eq_filter (s : String) :
    levelOf s = (educationLevels.filter
        (fun p => hasSub p.1.data (lowerChars s.data))).foldl
      (fun acc p => max acc p.2) 0 :=
  foldl_if_max_eq _ educationLevels 0

/-- C8: `match_education` scores `100.0` on an empty requirement list;
otherwise the required level is the maximum hierarchy value (high school=1,
associate=2, bachelor=3, master=4, phd=5, doctorate=5) whose label occurs
case-insensitively as a substring of some required string — `3` (bachelor)
when none occurs — and the score is `100.0` for candidate level at or above
the required level, `80.0` one level below, `60.0` two below, `40.0`
otherwise. -/
theorem calculateEducationMatch_spec (required : List String)
    (candidate : List CandidateEducation) :
    (required = [] → calculateEducationMatch required candidate = 100) ∧
    (required ≠ [] →
      (∀ e ∈ required, ∀ p ∈ educationLevels,
          hasSub p.1.data (lowerChars e.data) = true →
          p.2 ≤ requiredLevelRaw required) ∧
      (requiredLevelRaw required = 0 ∨
        ∃ e ∈ required, ∃ p ∈ educationLevels,
          hasSub p.1.data (lowerChars e.data) = true ∧
          p.2 = requiredLevelRaw required) ∧
      ((if requiredLevelRaw required = 0 then 3 else requiredLevelRaw required) ≤
          candidateLevel candidate →
        calculateEducationMatch required candidate = 100) ∧
      (candidateLevel candidate + 1 =
          (if requiredLevelRaw required = 0 then 3 else requiredLevelRaw required) →
        calculateEducationMatch required candidate = 80) ∧
      (candidateLevel candidate + 2 =
          (if requiredLevelRaw required = 0 then 3 else requiredLevelRaw required) →
        calculateEducationMatch required candidate = 60) ∧
      (candidateLevel candidate + 2 <
          (if requiredLevelRaw required = 0 then 3 else requiredLevelRaw required) →
        calculateEducationMatch required candidate = 40)) := by
  constructor
  · intro h
    simp [calculateEducationMatch, h]
  · intro hne
    have hunfold : calculateEducationMatch required candidate =
        (if (if requiredLevelRaw required = 0 then 3 else requiredLevelRaw required) ≤
            candidateLevel candidate then (100 : ℚ)
          else if candidateLevel candidate =
              (if requiredLevelRaw required = 0 then 3 else requiredLevelRaw required) - 1
            then 80
          else if candidateLevel candidate =
              (if requiredLevelRaw required = 0 then 3 else requiredLevelRaw required) - 2
            then 60
          else 40) := by
      simp only [calculateEducationMatch]
      rw [if_neg hne]
    refine ⟨?_, ?_, ?_, ?_, ?_, ?_⟩
    · intro e he p hp hsub
      refine le_trans ?_ (foldl_max_le levelOf required 0 e he)
      rw [levelOf_eq_filter]
      exact foldl_max_le Prod.snd _ 0 p
        (List.mem_filter.mpr ⟨hp, hsub⟩)
    · rcases foldl_max_cases levelOf required 0 with h | ⟨e, he, h⟩
      · exact Or.inl h
      · rw [levelOf_eq_filter] at h
        rcases foldl_max_cases Prod.snd
            (educationLevels.filter
              (fun p => hasSub p.1.data (lowerChars e.data))) 0 with h2 | ⟨p, hp, h2⟩
        · exact Or.inl (h.trans h2)
        · exact Or.inr ⟨e, he, p, (List.mem_filter.mp hp).1,
            (List.mem_filter.mp hp).2, (h.trans h2).symm⟩
    · intro h
      rw [hunfold, if_pos h]
    · intro h
      rw [hunfold, if_neg (by omega), if_pos (by omega)]
    · intro h
      rw [hunfold, if_neg (by omega), if_neg (by omega), if_pos (by omega)]
    · intro h
      rw [hunfold, if_neg (by omega), if_neg (by omega), if_neg (by omega)]

/-- Witness for C8: requirement "Master degree" (level 4) against a
bachelor-level candidate (level 3), one level below, scores `80.0`. -/
theorem calculateEducationMatch_spec_witness :
    calculateEducationMatch ["Master degree"]
      [{ institution := "U", degree := "Bachelor of Science",
         field_of_study := "CS", graduation_date := "2016" }] = 80 :=
  ((calculateEducationMatch_spec ["Master degree"]
      [{ institution := "U", degree := "Bachelor of Science",
         field_of_study := "CS", graduation_date := "2016" }]).2
    (by decide)).2.2.2.1 (by decide)

/-! Section: C2: advisory failure falls back to the weighted average -/

/-- The advisory call failed: the request raised (`none`), the response
status was not a success, or the reply text contains no numeric token. -/
def advisorFailed (resp : AdvisorResponse) : Prop :=
  ∀ status text, resp = some (status, text) →
    status ≠ 200 ∨ parseDecimal text.data = none

/-- C2: whenever the advisory call fails, `match_candidate_to_job` (a total
function, so it never raises) produces an overall score exactly equal to
`0.5·skill + 0.3·experience + 0.2·education` over its own sub-scores. -/
theorem overall_fallback (pre : String → List String) (resp : AdvisorResponse)
    (job : JobDescription) (candidate : CandidateProfile)
    (h : advisorFailed resp) :
    (matchCandidateToJob pre resp job candidate).overall_match_score =
      0.5 * (matchCandidateToJob pre resp job candidate).skill_match_score +
      0.3 * (matchCandidateToJob pre resp job candidate).experience_match_score +
      0.2 * (matchCandidateToJob pre resp job candidate).education_match_score := by
  have h2 : ∀ S E D : ℚ, useLLMForFinalEvaluation resp S E D =
      0.5 * S + 0.3 * E + 0.2 * D := by
    intro S E D
    cases resp with
    | none =>
      simp only [useLLMForFinalEvaluation, calculateWeightedAverage]
      ring
    | some st =>
      obtain ⟨status, text⟩ := st
      rcases h status text rfl with hst | hp
      · simp only [useLLMForFinalEvaluation, if_neg hst, calculateWeightedAverage]
        ring
      · by_cases hs : status = 200
        · simp only [useLLMForFinalEvaluation, if_pos hs, hp, calculateWeightedAverage]
          ring
        · simp only [useLLMForFinalEvaluation, if_neg hs, calculateWeightedAverage]
          ring
  simp only [matchCandidateToJob]
  exact h2 _ _ _

/-- Witness for C2: an advisory call that raised (`none`). -/
theorem overall_fallback_witness :
    (matchCandidateToJob (fun s => [s]) none jobDisjointSkills
        candPython).overall_match_score =
      0.5 * (matchCandidateToJob (fun s => [s]) none jobDisjointSkills
        candPython).skill_match_score +
      0.3 * (matchCandidateToJob (fun s => [s]) none jobDisjointSkills
        candPython).experience_match_score +
      0.2 * (matchCandidateToJob (fun s => [s]) none jobDisjointSkills
        candPython).education_match_score :=
  overall_fallback (fun s => [s]) none jobDisjointSkills candPython
    (fun _ _ h => Option.noConfusion h)

/-! Section: C1: all scores lie in [0, 100] -/

theorem skill_score_bounds (pre : String → List String)
    (job_skills candidate_skills : List String) :
    0 ≤ (calculateSkillMatch pre job_skills candidate_skills).1 ∧
      (calculateSkillMatch pre job_skills candidate_skills).1 ≤ 100 := by
  by_cases h : job_skills = []
  · simp [calculateSkillMatch, h]
  · simp only [calculateSkillMatch, if_neg h]
    constructor
    · positivity
    · have hm : (job_skills.filter
          (fun s => firstContainmentMatch pre s candidate_skills)).length ≤
            job_skills.length := List.length_filter_le _ _
      have hn : 0 < (job_skills.length : ℚ) := by
        exact_mod_cast List.length_pos.mpr h
      have hdiv : ((job_skills.filter
          (fun s => firstContainmentMatch pre s candidate_skills)).length : ℚ) /
            (job_skills.length : ℚ) ≤ 1 :=
        (div_le_one hn).mpr (by exact_mod_cast hm)
      calc ((job_skills.filter
            (fun s => firstContainmentMatch pre s candidate_skills)).length : ℚ) /
              (job_skills.length : ℚ) * 100
          ≤ 1 * 100 := mul_le_mul_of_nonneg_right hdiv (by norm_num)
        _ = 100 := one_mul 100

theorem experience_score_bounds (required : String)
    (entries : List CandidateExperience) :
    0 ≤ calculateExperienceMatch required entries ∧
      calculateExperienceMatch required entries ≤ 100 := by
  by_cases h : required = ""
  · simp [calculateExperienceMatch, h]
  · cases hy : extractYears required with
    | none =>
      simp only [calculateExperienceMatch, if_neg h, hy]
      norm_num
    | some n =>
      simp only [calculateExperienceMatch, if_neg h, hy]
      split_ifs <;> norm_num

theorem education_score_bounds (required : List String)
    (candidate : List CandidateEducation) :
    0 ≤ calculateEducationMatch required candidate ∧
      calculateEducationMatch required candidate ≤ 100 := by
  by_cases h : required = []
  · simp [calculateEducationMatch, h]
  · simp only [calculateEducationMatch, if_neg h]
    split_ifs <;> norm_num

theorem useLLM_bounds (resp : AdvisorResponse) (S E D : ℚ)
    (hS : 0 ≤ S ∧ S ≤ 100) (hE : 0 ≤ E ∧ E ≤ 100) (hD : 0 ≤ D ∧ D ≤ 100) :
    0 ≤ useLLMForFinalEvaluation resp S E D ∧
      useLLMForFinalEvaluation resp S E D ≤ 100 := by
  have hw : 0 ≤ calculateWeightedAverage S E D ∧
      calculateWeightedAverage S E D ≤ 100 := by
    obtain ⟨hS0, hS1⟩ := hS
    obtain ⟨hE0, hE1⟩ := hE
    obtain ⟨hD0, hD1⟩ := hD
    unfold calculateWeightedAverage
    constructor <;> nlinarith
  cases resp with
  | none => exact hw
  | some st =>
    obtain ⟨status, text⟩ := st
    simp only [useLLMForFinalEvaluation]
    split_ifs with hs
    · cases hp : parseDecimal text.data with
      | none => exact hw
      | some x =>
        refine ⟨le_max_left 0 _, max_le (by norm_num) (min_le_left 100 x)⟩
    · exact hw

/-- C1: every sub-score and the overall score of `match_candidate_to_job`
lie in `[0, 100]`. -/
theorem matchResult_scores_in_range (pre : String → List String)
    (resp : AdvisorResponse) (job : JobDescription)
    (candidate : CandidateProfile) :
    (0 ≤ (matchCandidateToJob pre resp job candidate).skill_match_score ∧
      (matchCandidateToJob pre resp job candidate).skill_match_score ≤ 100) ∧
    (0 ≤ (matchCandidateToJob pre resp job candidate).experience_match_score ∧
      (matchCandidateToJob pre resp job candidate).experience_match_score ≤ 100) ∧
    (0 ≤ (matchCandidateToJob pre resp job candidate).education_match_score ∧
      (matchCandidateToJob pre resp job candidate).education_match_score ≤ 100) ∧
    (0 ≤ (matchCandidateToJob pre resp job candidate).overall_match_score ∧
      (matchCandidateToJob pre resp job candidate).overall_match_score ≤ 100) := by
  have hS := skill_score_bounds pre
    (job.requirements.required_skills ++ job.requirements.preferred_skills)
    candidate.skills
  have hE := experience_score_bounds job.requirements.experience
    candidate.experience
  have hD := education_score_bounds job.requirements.education
    candidate.education
  have hO := useLLM_bounds resp _ _ _ hS hE hD
  simp only [matchCandidateToJob]
  exact ⟨hS, hE, hD, hO⟩

/-! Section: C3: shortlist partition and counts -/

theorem filter_neg_length (l : List MatchResult) (p : MatchResult → Bool) :
    (l.filter p).length + (l.filter (fun x => !(p x))).length = l.length := by
  have h := (List.filter_append_perm p l).length_eq
  rwa [List.length_append] at h

/-- C3: for a non-empty batch and any threshold, a candidate is shortlisted
exactly when its `overall_match_score ≥ threshold` (boundary inclusive),
rejected exactly when it is below, and
`shortlisted_count + rejected_count = total_candidates = |batch|`. -/
theorem shortlist_partition (default_threshold t : ℚ)
    (results : List MatchResult) (hne : results ≠ []) :
    (∀ cid, cid ∈ (shortlistCandidates default_threshold results
        (some t)).shortlisted_candidates ↔
      ∃ r ∈ results, r.candidate_id = cid ∧ t ≤ r.overall_match_score) ∧
    (∀ cid, cid ∈ (shortlistCandidates default_threshold results
        (some t)).rejected_candidates ↔
      ∃ r ∈ results, r.candidate_id = cid ∧ r.overall_match_score < t) ∧
    (shortlistCandidates default_threshold results
        (some t)).shortlist_stats.shortlisted_count +
      (shortlistCandidates default_threshold results
        (some t)).shortlist_stats.rejected_count =
      (shortlistCandidates default_threshold results
        (some t)).shortlist_stats.total_candidates ∧
    (shortlistCandidates default_threshold results
        (some t)).shortlist_stats.total_candidates = results.length := by
  obtain ⟨first, rest, rfl⟩ : ∃ f r, results = f :: r := by
    cases results with
    | nil => exact absurd rfl hne
    | cons f r => exact ⟨f, r, rfl⟩
  refine ⟨?_, ?_, ?_, ?_⟩
  · intro cid
    simp only [shortlistCandidates, Option.getD_some, List.mem_map,
      List.mem_filter, decide_eq_true_eq]
    constructor
    · rintro ⟨r, ⟨hr, hscore⟩, rfl⟩
      exact ⟨r, hr, rfl, hscore⟩
    · rintro ⟨r, hr, rfl, hscore⟩
      exact ⟨r, ⟨hr, hscore⟩, rfl⟩
  · intro cid
    simp only [shortlistCandidates, Option.getD_some, List.mem_map,
      List.mem_filter, Bool.not_eq_eq_eq_not, Bool.not_true,
      decide_eq_false_iff_not, not_le]
    constructor
    · rintro ⟨r, ⟨hr, hscore⟩, rfl⟩
      exact ⟨r, hr, rfl, hscore⟩
    · rintro ⟨r, hr, rfl, hscore⟩
      exact ⟨r, ⟨hr, hscore⟩, rfl⟩
  · simp only [shortlistCandidates, Option.getD_some, List.length_map]
    exact filter_neg_length (first :: rest)
      (fun r => decide (t ≤ r.overall_match_score))
  · simp only [shortlistCandidates, Option.getD_some]

/-- A concrete match-result pair for the shortlist witness. -/
def mrAbove : MatchResult :=
  { job_id := "JD-1", candidate_id := "C-5678", overall_match_score := 85.5,
    skill_match_score := 90, experience_match_score := 80,
    education_match_score := 100,
    match_details := { matched_skills := [], missing_skills := [],
                       skill_match_percentage := 90,
                       experience_match_percentage := 80,
                       education_match_percentage := 100 } }

/-- A concrete match result below the default threshold. -/
def mrBelow : MatchResult :=
  { job_id := "JD-1", candidate_id := "C-5679", overall_match_score := 65.2,
    skill_match_score := 60, experience_match_score := 70,
    education_match_score := 80,
    match_details := { matched_skills := [], missing_skills := [],
                       skill_match_percentage := 60,
                       experience_match_percentage := 70,
                       education_match_percentage := 80 } }

/-- Witness for C3 on a two-element batch at threshold 70. -/
theorem shortlist_partition_witness :
    (∀ cid, cid ∈ (shortlistCandidates 70 [mrAbove, mrBelow]
        (some 70)).shortlisted_candidates ↔
      ∃ r ∈ [mrAbove, mrBelow], r.candidate_id = cid ∧
        (70 : ℚ) ≤ r.overall_match_score) ∧
    (∀ cid, cid ∈ (shortlistCandidates 70 [mrAbove, mrBelow]
        (some 70)).rejected_candidates ↔
      ∃ r ∈ [mrAbove, mrBelow], r.candidate_id = cid ∧
        r.overall_match_score < (70 : ℚ)) ∧
    (shortlistCandidates 70 [mrAbove, mrBelow]
        (some 70)).shortlist_stats.shortlisted_count +
      (shortlistCandidates 70 [mrAbove, mrBelow]
        (some 70)).shortlist_stats.rejected_count =
      (shortlistCandidates 70 [mrAbove, mrBelow]
        (some 70)).shortlist_stats.total_candidates ∧
    (shortlistCandidates 70 [mrAbove, mrBelow]
        (some 70)).shortlist_stats.total_candidates =
      ([mrAbove, mrBelow] : List MatchResult).length :=
  shortlist_partition 70 70 [mrAbove, mrBelow] (List.cons_ne_nil _ _)

end NeuralRecruit
